import Mathlib

/-!
Verification of the lesson-content / completion-status caching core of the
FastApi_Nail_Project repository (services/lesson_service.py,
routers/admin/lesson_admin.py, db/models.py), as a shallow embedding.

Python dynamic values flowing through the JSON serialization boundary are
modelled by a `Json` AST; the key-value store holds plain strings, and
`json.dumps` / `json.loads` are modelled by a concrete printer and a
fuel-based parser (compact separators; the byte-level format is a model of
Python's, what matters for the claims is that serialization is a real
string-level codec with a proved round trip).

UUID values are modelled by their string rendering (`str(uuid)`), which is
how they enter every cache key and every serialized payload.
-/

/-- Model of a Python/JSON dynamic value as handled by `json.dumps` /
`json.loads` in the lesson cache: null, booleans, strings, and string-keyed
objects (numbers and arrays never occur in the payloads this code writes,
and for corrupt cached text only the shape checks matter). -/
inductive Json where
  | null : Json
  | bool (b : Bool) : Json
  | str (s : String) : Json
  | obj (fields : List (String × Json)) : Json

/-- JSON string escaping: quote and backslash get a backslash prefix
(control/unicode escapes are not modelled; the round trip is unaffected). -/
def escapeChars : List Char → List Char
  | [] => []
  | c :: cs =>
      if c = '"' ∨ c = '\\' then '\\' :: c :: escapeChars cs
      else c :: escapeChars cs

mutual

/-- Printer for `Json`, modelling `json.dumps` with Python's default
separators (a comma-space between fields, a colon-space after keys). -/
def dumpsChars : Json → List Char
  | .null => 'n' :: 'u' :: 'l' :: 'l' :: []
  | .bool b =>
      if b then 't' :: 'r' :: 'u' :: 'e' :: []
      else 'f' :: 'a' :: 'l' :: 's' :: 'e' :: []
  | .str s => '"' :: (escapeChars s.data ++ ['"'])
  | .obj fs => '{' :: (dumpsFieldsChars fs ++ ['}'])

/-- Printer for the field list of a JSON object (without the braces). -/
def dumpsFieldsChars : List (String × Json) → List Char
  | [] => []
  | (k, v) :: rest =>
      '"' :: (escapeChars k.data ++ '"' :: ':' :: ' ' :: dumpsChars v)
        ++ (if rest.isEmpty then [] else [',', ' '])
        ++ dumpsFieldsChars rest

end

/-- `json.dumps` at the `String` level. -/
def dumps (j : Json) : String := ⟨dumpsChars j⟩

/-- Parser for the body of a JSON string (after the opening quote), undoing
`escapeChars` and stopping at the closing quote. -/
def parseStrChars : List Char → Option (List Char × List Char)
  | [] => none
  | c :: rest =>
      if c = '"' then some ([], rest)
      else if c = '\\' then
        match rest with
        | [] => none
        | e :: rest2 =>
            if e = '"' ∨ e = '\\' then
              match parseStrChars rest2 with
              | some (s, r) => some (e :: s, r)
              | none => none
            else none
      else
        match parseStrChars rest with
        | some (s, r) => some (c :: s, r)
        | none => none

mutual

/-- Fuel-based parser for `Json`, modelling `json.loads` on the texts the
printer emits (anything else may fail, which `json.loads` signals by an
exception, modelled as `none`). -/
def parseJson : Nat → List Char → Option (Json × List Char)
  | 0, _ => none
  | fuel + 1, cs =>
      match cs with
      | 'n' :: 'u' :: 'l' :: 'l' :: rest => some (.null, rest)
      | 't' :: 'r' :: 'u' :: 'e' :: rest => some (.bool true, rest)
      | 'f' :: 'a' :: 'l' :: 's' :: 'e' :: rest => some (.bool false, rest)
      | '"' :: rest =>
          match parseStrChars rest with
          | some (s, r) => some (.str ⟨s⟩, r)
          | none => none
      | '{' :: '}' :: rest => some (.obj [], rest)
      | '{' :: rest =>
          match parseFields fuel rest with
          | some (fs, r) => some (.obj fs, r)
          | none => none
      | _ => none

/-- Parser for a nonempty field list of a JSON object, consuming the closing
brace. -/
def parseFields : Nat → List Char → Option (List (String × Json) × List Char)
  | 0, _ => none
  | fuel + 1, cs =>
      match cs with
      | '"' :: rest =>
          match parseStrChars rest with
          | none => none
          | some (k, r1) =>
              match r1 with
              | ':' :: ' ' :: r2 =>
                  match parseJson fuel r2 with
                  | none => none
                  | some (v, r3) =>
                      match r3 with
                      | ',' :: ' ' :: r4 =>
                          match parseFields fuel r4 with
                          | some (fs, r5) => some ((⟨k⟩, v) :: fs, r5)
                          | none => none
                      | '}' :: r4 => some ([(⟨k⟩, v)], r4)
                      | _ => none
              | _ => none
      | _ => none

end

/-- `json.loads` at the `String` level: parse with enough fuel and require
the whole text to be consumed; `none` models a `JSONDecodeError`. -/
def loads (s : String) : Option Json :=
  match parseJson (s.data.length + 1) s.data with
  | some (j, []) => some j
  | _ => none

mutual

/-- Fuel sufficient for the parser on the printer's output. -/
def jfuel : Json → Nat
  | .null => 1
  | .bool _ => 1
  | .str _ => 1
  | .obj fs => jfuelFields fs + 1

/-- Fuel sufficient for the field-list parser on the printer's output. -/
def jfuelFields : List (String × Json) → Nat
  | [] => 1
  | (_, v) :: rest => jfuel v + jfuelFields rest + 1

end

/-- Python `isinstance(data, dict)`. -/
def Json.isDict : Json → Bool
  | .obj _ => true
  | _ => false

/-- Python dict lookup `data[key]` (first binding wins; the payloads this
code writes have distinct keys). `none` models a `KeyError`. -/
def Json.lookup (j : Json) (key : String) : Option Json :=
  match j with
  | .obj fields => (fields.find? (fun kv => kv.1 == key)).map (fun kv => kv.2)
  | _ => none

/-- Python `key in data` membership test on a dict. -/
def Json.hasKey (j : Json) (key : String) : Bool :=
  (j.lookup key).isSome

/-- Modelled from the spec: the Key-Value Cache Client (`redis_client`, not
part of the sources) — a string-keyed remote store with get /
set-with-expiry / delete / pattern-based key listing, any of which can fail
when the store is unreachable (spec section 2 and section 6). The failure
flags model unreachability of the store for the respective operation; an
`Except.error` is a raised client exception. -/
structure Redis where
  store : List (String × String)
  getFails : Bool
  setFails : Bool
  delFails : Bool

/-- The value currently stored at a key, if any. -/
def Redis.lookup (r : Redis) (k : String) : Option String :=
  (r.store.find? (fun kv => kv.1 == k)).map (fun kv => kv.2)

/-- `await redis.get(key)`: `None` on a missing key. -/
def redis_get (r : Redis) (k : String) : Except Unit (Option String) :=
  if r.getFails then .error () else .ok (r.lookup k)

/-- `await redis.setex(key, ttl, value)`: store under the key, replacing any
previous binding (the ttl is wall-clock expiry, outside this embedding). -/
def redis_setex (r : Redis) (k : String) (_ttl : Nat) (v : String) :
    Except Unit Redis :=
  if r.setFails then .error ()
  else .ok { r with store := (k, v) :: r.store.filter (fun kv => !(kv.1 == k)) }

/-- `await redis.delete(key)`. -/
def redis_delete (r : Redis) (k : String) : Except Unit Redis :=
  if r.delFails then .error ()
  else .ok { r with store := r.store.filter (fun kv => !(kv.1 == k)) }

/-- Redis KEYS glob matching, fuel-based form (each step shortens the
pattern or the key, so fuel `|pattern| + |key| + 1` always suffices). -/
def globMatchAux : Nat → List Char → List Char → Bool
  | 0, _, _ => false
  | _ + 1, [], [] => true
  | fuel + 1, '*' :: ps, [] => globMatchAux fuel ps []
  | fuel + 1, '*' :: ps, k :: ks =>
      globMatchAux fuel ps (k :: ks) || globMatchAux fuel ('*' :: ps) ks
  | fuel + 1, p :: ps, k :: ks => p == k && globMatchAux fuel ps ks
  | _ + 1, _ :: _, [] => false
  | _ + 1, [], _ :: _ => false

/-- Redis KEYS glob matching (only the `*` wildcard occurs in this code). -/
def globMatch (p k : List Char) : Bool :=
  globMatchAux (p.length + k.length + 1) p k

/-- `redis.keys(pattern)`: every stored key matching the glob pattern. -/
def redis_keys (r : Redis) (pat : String) : List String :=
  (r.store.map (fun kv => kv.1)).filter (fun k => globMatch pat.data k.data)

/-- Row of the `lessons` table (db/models.py, class Lesson). The UUID primary
key and foreign key are modelled by their string renderings. -/
structure Lesson where
  id : String
  course_id : String
  title : String
  video_path : Option String
  text_content : Option String

/-- Row of the `courses` table (db/models.py, class Course); the lessons
relationship is recovered by the course_id foreign key. -/
structure Course where
  id : String
  title : String
  description : Option String

/-- Row of the `lesson_completions` table (db/models.py, class
LessonCompletion). The surrogate primary key `id` and the `completed_at`
timestamp are generated defaults never read by the code under
verification, so they are not carried. -/
structure LessonCompletion where
  lesson_id : String
  user_id : String

/-- The persistent relational store. -/
structure DB where
  lessons : List Lesson
  courses : List Course
  completions : List LessonCompletion

/-- `select(models.Lesson).filter(models.Lesson.id == lesson_id)` then
`.scalars().first()`. -/
def DB.findLesson (db : DB) (lesson_id : String) : Option Lesson :=
  db.lessons.find? (fun l => l.id == lesson_id)

/-- The `Lesson.course` relationship (`joinedload`), resolved through the
course_id foreign key. -/
def DB.findCourse (db : DB) (course_id : String) : Option Course :=
  db.courses.find? (fun c => c.id == course_id)

/-- The existence query shared by `is_lesson_completed` and
`mark_lesson_completed`:
`select(models.LessonCompletion).filter_by(user_id=..., lesson_id=...)`
then `.scalars().first() is not None`. -/
def DB.completionExists (db : DB) (user_id lesson_id : String) : Bool :=
  db.completions.any (fun c => c.user_id == user_id && c.lesson_id == lesson_id)

/-- Modelled from the spec: the external Markdown Renderer boundary
(spec section 6) — a pure function from source text to HTML text that never
raises; modelled as the single-paragraph rendering. No claim depends on the
particular HTML produced, only on purity. -/
def markdown_markdown (text : String) : String :=
  "<p>" ++ text ++ "</p>"

namespace lesson_service

/-- services/lesson_service.py: `CACHE_VERSION = "v1"`. -/
def CACHE_VERSION : String := "v1"

/-- `settings.LESSON_CACHE_TTL`: externally configured (core/config.py);
the concrete number is irrelevant to every claim. -/
def CACHE_LESSON_EXPIRE_SECONDS : Nat := 3600

/-- `settings.COMPLETION_CACHE_TTL`: externally configured (core/config.py);
the concrete number is irrelevant to every claim. -/
def CACHE_COMPLETION_EXPIRE_SECONDS : Nat := 3600

/-- services/lesson_service.py `get_lesson_cache_key`:
`f"{CACHE_VERSION}:lesson:{lesson_id}"`. -/
def get_lesson_cache_key (lesson_id : String) : String :=
  CACHE_VERSION ++ ":lesson:" ++ lesson_id

/-- services/lesson_service.py `get_completion_cache_key`:
`f"{CACHE_VERSION}:user:{user_id}:lesson:{lesson_id}:completed"`. -/
def get_completion_cache_key (user_id lesson_id : String) : String :=
  CACHE_VERSION ++ ":user:" ++ user_id ++ ":lesson:" ++ lesson_id ++ ":completed"

/-- services/lesson_service.py `fetch_lesson_from_db`: select the lesson
joined with its course; build the lesson and course dicts and the rendered
HTML. Returns `none` for the Python `(None, None, None)`. The inner
`findCourse` mirrors the `joinedload` relationship; under foreign-key
integrity it cannot be `none` when the lesson exists. -/
def fetch_lesson_from_db (lesson_id : String) (db : DB) :
    Option (Json × Json × Json) :=
  match db.findLesson lesson_id with
  | none => none
  | some lesson_obj =>
      match db.findCourse lesson_obj.course_id with
      | none => none
      | some course_obj =>
          let video_url : Json :=
            match lesson_obj.video_path with
            | some p => if p == "" then .null else .str ("/" ++ p)
            | none => .null
          let text_content := lesson_obj.text_content.getD ""
          let lesson : Json := .obj
            [("id", .str lesson_obj.id),
             ("title", .str lesson_obj.title),
             ("text_content", .str text_content),
             ("video_url", video_url),
             ("course_id", .str lesson_obj.course_id)]
          let course : Json := .obj
            [("id", .str course_obj.id),
             ("title", .str course_obj.title)]
          let text_html := markdown_markdown text_content
          some (lesson, course, .str text_html)

/-- services/lesson_service.py `cache_lesson_data`: build the payload dict,
serialize it and `setex` it under the lesson TTL; a Redis error is logged
and swallowed (`try`/`except`), leaving the store as it was. -/
def cache_lesson_data (r : Redis) (cache_key : String)
    (lesson course text_html : Json) : Redis :=
  let payload : Json :=
    .obj [("lesson", lesson), ("course", course), ("text_html", text_html)]
  match redis_setex r cache_key CACHE_LESSON_EXPIRE_SECONDS (dumps payload) with
  | .ok r2 => r2
  | .error _ => r

/-- services/lesson_service.py `get_lesson_data`: try the cache (Redis
errors, JSON decode errors, a falsy cached value, a non-dict payload, a
payload without "lesson", and a KeyError on the projection all fall through
to the database); on the database path, re-populate the cache when the
lesson exists. -/
def get_lesson_data (r : Redis) (db : DB) (lesson_id : String) :
    Option (Json × Json × Json) × Redis :=
  let cache_key := get_lesson_cache_key lesson_id
  let warm : Option (Json × Json × Json) :=
    match redis_get r cache_key with
    | .error _ => none
    | .ok none => none
    | .ok (some cached) =>
        if cached == "" then none
        else
          match loads cached with
          | none => none
          | some data =>
              if data.isDict && data.hasKey "lesson" then
                match data.lookup "lesson", data.lookup "course",
                    data.lookup "text_html" with
                | some l, some c, some h => some (l, c, h)
                | _, _, _ => none
              else none
  match warm with
  | some t => (some t, r)
  | none =>
      match fetch_lesson_from_db lesson_id db with
      | none => (none, r)
      | some (lesson, course, text_html) =>
          (some (lesson, course, text_html),
           cache_lesson_data r cache_key lesson course text_html)

/-- services/lesson_service.py `is_lesson_completed`: on a cache hit (the
stored value is not absent) compare the cached string against "true"; on a
miss or a Redis read error, query the completion table and best-effort
refresh the cache. -/
def is_lesson_completed (r : Redis) (db : DB) (lesson_id user_id : String) :
    Bool × Redis :=
  let cache_key := get_completion_cache_key user_id lesson_id
  match redis_get r cache_key with
  | .ok (some cached_status) => (cached_status == "true", r)
  | _ =>
      let completed := db.completionExists user_id lesson_id
      let r2 :=
        match redis_setex r cache_key CACHE_COMPLETION_EXPIRE_SECONDS
            (if completed then "true" else "false") with
        | .ok r3 => r3
        | .error _ => r
      (completed, r2)

/-- services/lesson_service.py `mark_lesson_completed`: `none` when the
lesson does not exist; `some false` when a completion record already exists;
otherwise insert the record, commit, best-effort write the completion flag
and best-effort delete the lesson content cache entry, and return
`some true`. -/
def mark_lesson_completed (r : Redis) (db : DB) (lesson_id user_id : String) :
    Option Bool × DB × Redis :=
  match db.findLesson lesson_id with
  | none => (none, db, r)
  | some _ =>
      if db.completionExists user_id lesson_id then (some false, db, r)
      else
        let db2 := { db with
          completions := db.completions ++ [⟨lesson_id, user_id⟩] }
        let r2 :=
          match redis_setex r (get_completion_cache_key user_id lesson_id)
              CACHE_COMPLETION_EXPIRE_SECONDS "true" with
          | .ok x => x
          | .error _ => r
        let r3 :=
          match redis_delete r2 (get_lesson_cache_key lesson_id) with
          | .ok x => x
          | .error _ => r2
        (some true, db2, r3)

end lesson_service

/-- Outcome of an admin route handler: the 404 branch
(`HTTPException(404, ...)`, rendered by the framework as a not-found
response) or the redirect response it returns on success. -/
inductive AdminResult where
  | notFound : AdminResult
  | redirect (url : String) : AdminResult

namespace lesson_admin

/-- routers/admin/lesson_admin.py `get_lesson_cache_key`:
`f"lesson:{lesson_id}"` (no version segment, unlike the service module). -/
def get_lesson_cache_key (lesson_id : String) : String :=
  "lesson:" ++ lesson_id

/-- routers/admin/lesson_admin.py `update_lesson`: 404 when the lesson is
missing; otherwise replace the video path when a file was uploaded
(file-storage writes are a boundary outside the modelled state), set title
and text_content, commit, then `await redis.delete(...)` with no
`try`/`except`: a Redis error escapes the handler after the commit, which is
modelled by the error carrying the committed database and untouched store. -/
def update_lesson (r : Redis) (db : DB)
    (lesson_id title text_content : String) (video_file : Option String) :
    Except (DB × Redis) (AdminResult × DB × Redis) :=
  match db.findLesson lesson_id with
  | none => .ok (.notFound, db, r)
  | some lesson =>
      let video_path :=
        match video_file with
        | some fn => if fn == "" then lesson.video_path
                     else some ("static/videos/" ++ fn)
        | none => lesson.video_path
      let db2 := { db with lessons := db.lessons.map (fun l =>
        if l.id == lesson_id then
          { l with title := title, text_content := some text_content,
                   video_path := video_path }
        else l) }
      match redis_delete r (get_lesson_cache_key lesson_id) with
      | .error _ => .error (db2, r)
      | .ok r2 =>
          .ok (.redirect ("/admin/courses/" ++ lesson.course_id ++ "/lessons"),
               db2, r2)

/-- routers/admin/lesson_admin.py `delete_lesson`: 404 when the lesson is
missing; otherwise delete the video file (file-storage boundary), delete the
lesson row and commit, `await redis.delete(...)` of the admin-computed
lesson key (unguarded, as in `update_lesson`), then the pattern-based bulk
deletion of completion keys. In the source the `redis.keys(pattern)` and
`redis.delete(*keys)` coroutines are built but never awaited; the model
charitably executes them (the reading most favorable to the spec). Note the
completion rows are not touched. -/
def delete_lesson (r : Redis) (db : DB) (lesson_id : String) :
    Except (DB × Redis) (AdminResult × DB × Redis) :=
  match db.findLesson lesson_id with
  | none => .ok (.notFound, db, r)
  | some lesson =>
      let course_id := lesson.course_id
      let db2 := { db with
        lessons := db.lessons.filter (fun l => !(l.id == lesson_id)) }
      match redis_delete r (get_lesson_cache_key lesson_id) with
      | .error _ => .error (db2, r)
      | .ok r2 =>
          let pat := "user:*:lesson:" ++ lesson_id ++ ":completed"
          let keys := redis_keys r2 pat
          let r3 :=
            if keys.isEmpty then r2
            else { r2 with
              store := r2.store.filter (fun kv => !(keys.contains kv.1)) }
          .ok (.redirect ("/admin/courses/" ++ course_id ++ "/lessons"),
               db2, r3)

end lesson_admin

/-- Number of completion rows for a (user, lesson) pair — the observation
behind the at-most-one-record invariant. -/
def DB.countCompletions (db : DB) (user_id lesson_id : String) : Nat :=
  (db.completions.filter
    (fun c => c.user_id == user_id && c.lesson_id == lesson_id)).length

/-- Concrete course row for the executable scenarios. -/
def sampleCourse : Course :=
  { id := "C1", title := "Course", description := none }

/-- Concrete lesson row for the executable scenarios. -/
def sampleLesson : Lesson :=
  { id := "L1", course_id := "C1", title := "Old title",
    video_path := none, text_content := some "body" }

/-- Concrete database: one course, one lesson, no completions. -/
def sampleDb : DB :=
  { lessons := [sampleLesson], courses := [sampleCourse], completions := [] }

/-- Empty, healthy cache store. -/
def sampleRedis : Redis :=
  { store := [], getFails := false, setFails := false, delFails := false }

/-- The triple `fetch_lesson_from_db` computes for the sample lesson. -/
def sampleTriple : Json × Json × Json :=
  (lesson_service.fetch_lesson_from_db "L1" sampleDb).getD
    (.null, .null, .null)

/-- Scenario for the update-invalidation property: serve the lesson once (so
the service caches it under its own key), run the admin retitle to
"New title", then read again through `get_lesson_data` and project the
served title. -/
def titleAfterAdminRetitle : Option String :=
  let r1 := (lesson_service.get_lesson_data sampleRedis sampleDb "L1").2
  match lesson_admin.update_lesson r1 sampleDb "L1" "New title" "body" none with
  | .error _ => none
  | .ok (_, db2, r2) =>
      match (lesson_service.get_lesson_data r2 db2 "L1").1 with
      | some (lessonJ, _, _) =>
          match lessonJ.lookup "title" with
          | some (.str t) => some t
          | _ => none
      | none => none

/-- Database for the delete scenario: the sample data plus a completion of
L1 by user U1. -/
def c2Db : DB :=
  { sampleDb with completions := [{ lesson_id := "L1", user_id := "U1" }] }

/-- Cache store for the delete scenario: the completion flag the service
itself would have written for (U1, L1). -/
def c2Redis : Redis :=
  { store := [(lesson_service.get_completion_cache_key "U1" "L1", "true")],
    getFails := false, setFails := false, delFails := false }

/-- Scenario for the bulk-invalidation-on-delete property: run the admin
delete of L1, then observe (what `is_lesson_completed` answers for (L1, U1),
how many completion rows for the pair survive, what the completion-cache
key still holds). `none` would mean the handler did not complete. -/
def completionStateAfterAdminDelete : Option (Bool × Nat × Option String) :=
  match lesson_admin.delete_lesson c2Redis c2Db "L1" with
  | .error _ => none
  | .ok (_, db2, r2) =>
      some ((lesson_service.is_lesson_completed r2 db2 "L1" "U1").1,
            db2.countCompletions "U1" "L1",
            r2.lookup (lesson_service.get_completion_cache_key "U1" "L1"))

/-- Healthy store whose delete operation fails (store unreachable exactly
for deletions). -/
def c4Redis : Redis :=
  { store := [], getFails := false, setFails := false, delFails := true }

/-- Whether the admin update handler completes (returns its redirect) in the
scenario where the cache-store deletion fails. -/
def adminUpdateSurvivesCacheFailure : Bool :=
  match lesson_admin.update_lesson c4Redis sampleDb "L1" "New title" "body"
      none with
  | .ok _ => true
  | .error _ => false

/-- Store whose every operation fails: the outage scenario. -/
def downRedis : Redis :=
  { store := [], getFails := true, setFails := true, delFails := true }

/-- Healthy store holding a corrupt (non-boolean) completion flag for
(U1, L1). -/
def c9Redis : Redis :=
  { store := [(lesson_service.get_completion_cache_key "U1" "L1", "garbage")],
    getFails := false, setFails := false, delFails := false }



/-- Structure eta for strings, used to fold the parser's rebuilt key back
into the original. -/
theorem string_mk_data (s : String) : (⟨s.data⟩ : String) = s := rfl

/-- Unescaping inverts escaping: the string-body parser applied to an escaped
text followed by the closing quote recovers the original characters. -/
theorem parseStrChars_escape (cs rest : List Char) :
    parseStrChars (escapeChars cs ++ '"' :: rest) = some (cs, rest) := by
  induction cs with
  | nil =>
      simp only [escapeChars, List.nil_append]
      rw [parseStrChars.eq_def]
      simp
  | cons c cs ih =>
      by_cases hc : c = '"' ∨ c = '\\'
      · simp only [escapeChars, if_pos hc, List.cons_append]
        rw [parseStrChars.eq_def]
        simp [hc, ih]
      · push_neg at hc
        simp only [escapeChars, hc.1, hc.2, or_self, if_false,
          List.cons_append]
        rw [parseStrChars.eq_def]
        simp [hc.1, hc.2, ih]

/-- The parser inverts the printer, given enough fuel (joint statement for
values and nonempty field lists, by induction on the fuel). -/
theorem parseJson_dumpsChars_aux : ∀ fuel : Nat,
    (∀ (j : Json) (rest : List Char), jfuel j ≤ fuel →
      parseJson fuel (dumpsChars j ++ rest) = some (j, rest)) ∧
    (∀ (fs : List (String × Json)) (rest : List Char), fs ≠ [] →
      jfuelFields fs ≤ fuel →
      parseFields fuel (dumpsFieldsChars fs ++ '}' :: rest) = some (fs, rest))
  | 0 => by
      constructor
      · intro j rest h
        cases j <;> simp [jfuel] at h
      · intro fs rest hne h
        cases fs with
        | nil => exact absurd rfl hne
        | cons f fs => simp [jfuelFields] at h
  | fuel + 1 => by
      have ih := parseJson_dumpsChars_aux fuel
      constructor
      · intro j rest h
        match j with
        | .null => simp [dumpsChars, parseJson]
        | .bool true => simp [dumpsChars, parseJson]
        | .bool false => simp [dumpsChars, parseJson]
        | .str s =>
            simp [dumpsChars, parseJson, List.append_assoc,
              parseStrChars_escape]
        | .obj [] => simp [dumpsChars, dumpsFieldsChars, parseJson]
        | .obj ((k, v) :: fs) =>
            have hf : jfuelFields ((k, v) :: fs) ≤ fuel := by
              simp only [jfuel] at h; omega
            have hrec := ih.2 ((k, v) :: fs) rest (by simp) hf
            simp only [dumpsFieldsChars, List.cons_append, List.append_assoc,
              List.nil_append, List.append_nil] at hrec
            simp only [dumpsChars, dumpsFieldsChars, List.cons_append,
              List.append_assoc, List.nil_append, List.append_nil]
            simp only [parseJson]
            simp [hrec]
      · intro fs rest hne h
        match fs with
        | [] => exact absurd rfl hne
        | (k, v) :: fs2 =>
            have hv : jfuel v ≤ fuel := by
              simp only [jfuelFields] at h; omega
            match fs2 with
            | [] =>
                have hval := ih.1 v ('}' :: rest) hv
                simp only [dumpsFieldsChars, List.isEmpty_nil, if_true,
                  List.append_nil, List.nil_append, List.cons_append,
                  List.append_assoc]
                simp only [parseFields]
                simp [parseStrChars_escape, hval, string_mk_data]
            | f3 :: fs3 =>
                have hfs2 : jfuelFields (f3 :: fs3) ≤ fuel := by
                  simp only [jfuelFields] at h ⊢; omega
                have hrec := ih.2 (f3 :: fs3) rest (by simp) hfs2
                have hval := ih.1 v
                  (',' :: ' ' :: (dumpsFieldsChars (f3 :: fs3) ++ '}' :: rest))
                  hv
                simp only [dumpsFieldsChars, List.isEmpty_cons, if_false,
                  List.cons_append, List.append_assoc, List.nil_append,
                  List.append_nil] at hrec hval ⊢
                simp only [parseFields]
                simp [parseStrChars_escape, hval, hrec, string_mk_data]

mutual

/-- The fuel bound is dominated by the printed length. -/
theorem jfuel_le (j : Json) : jfuel j ≤ (dumpsChars j).length + 1 := by
  match j with
  | .null => simp [jfuel, dumpsChars]
  | .bool true => simp [jfuel, dumpsChars]
  | .bool false => simp [jfuel, dumpsChars]
  | .str s => simp [jfuel, dumpsChars]
  | .obj fs =>
      have h := jfuelFields_le fs
      simp only [jfuel, dumpsChars, List.length_cons, List.length_append,
        List.length_singleton]
      omega

/-- The field-list fuel bound is dominated by the printed length. -/
theorem jfuelFields_le (fs : List (String × Json)) :
    jfuelFields fs ≤ (dumpsFieldsChars fs).length + 1 := by
  match fs with
  | [] => simp [jfuelFields, dumpsFieldsChars]
  | (k, v) :: rest =>
      have h1 := jfuel_le v
      have h2 := jfuelFields_le rest
      simp only [jfuelFields, dumpsFieldsChars, List.length_append,
        List.length_cons]
      have h3 : (if rest.isEmpty then ([] : List Char) else [',', ' ']).length ≤ 2 := by
        cases rest <;> simp
      omega

end

/-- The string-level codec round trip: `json.loads` inverts `json.dumps`. -/
theorem loads_dumps (j : Json) : loads (dumps j) = some j := by
  have hfuel : jfuel j ≤ (dumpsChars j).length + 1 :=
    Nat.le_trans (jfuel_le j) (Nat.le_refl _)
  have h := (parseJson_dumpsChars_aux ((dumpsChars j).length + 1)).1 j [] hfuel
  rw [List.append_nil] at h
  show (match parseJson ((dumpsChars j).length + 1) (dumpsChars j) with
    | some (j, []) => some j
    | _ => none) = some j
  rw [h]

/-- C3: the claim says every component computes the lesson key as
`v1:lesson:<id>` and that the admin bulk pattern matches every completion
key the service writes. In the code the admin module's key function omits
the version segment, so for every lesson_id the key the admin hook deletes
differs from the key the service reads and writes; and the admin bulk
pattern `user:*:lesson:<id>:completed` matches no completion key the
service writes (those start with `v1:`). -/
theorem admin_cache_keys_mismatch_service_keys :
    (∀ lesson_id : String,
      lesson_admin.get_lesson_cache_key lesson_id ≠
        lesson_service.get_lesson_cache_key lesson_id) ∧
    (∀ user_id lesson_id : String,
      globMatch ("user:*:lesson:" ++ lesson_id ++ ":completed").data
        (lesson_service.get_completion_cache_key user_id lesson_id).data
        = false) := by
  constructor
  · intro lesson_id h
    have hlen := congrArg String.length h
    simp only [lesson_admin.get_lesson_cache_key,
      lesson_service.get_lesson_cache_key, lesson_service.CACHE_VERSION,
      String.length_append] at hlen
    have e1 : ("lesson:" : String).length = 7 := rfl
    have e2 : ("v1" : String).length = 2 := rfl
    have e3 : (":lesson:" : String).length = 8 := rfl
    omega
  · intro user_id lesson_id
    have hpat : ("user:*:lesson:" ++ lesson_id ++ ":completed").data
        = 'u' :: ("ser:*:lesson:" ++ lesson_id ++ ":completed").data := by
      rw [String.data_append, String.data_append, String.data_append]
      rfl
    have hkey : (lesson_service.get_completion_cache_key
          user_id lesson_id).data
        = 'v' :: ("1:user:" ++ user_id ++ ":lesson:" ++ lesson_id
            ++ ":completed").data := by
      simp only [lesson_service.get_completion_cache_key,
        lesson_service.CACHE_VERSION]
      repeat rw [String.data_append]
      rfl
    rw [hpat, hkey]
    simp [globMatch, globMatchAux]

set_option maxRecDepth 100000

/-- C1: the claim says that after an admin retitle the very next
`get_lesson_data` returns the new title even when a stale cache entry
existed. In the executable scenario the service caches the lesson under
`v1:lesson:L1`, the admin update commits the new title and deletes only
`lesson:L1`, and the next read serves the stale "Old title" instead of
"New title". -/
theorem admin_update_leaves_stale_lesson_cache :
    titleAfterAdminRetitle = some "Old title" ∧
    ("Old title" : String) ≠ "New title" := by
  exact ⟨rfl, by decide⟩

/-- C2: the claim says that after the admin delete no completion-cache entry
for the lesson survives and the completion rows are removed, so a later
`is_lesson_completed` recomputes `false` from the database. In the
executable scenario the handler completes, yet `is_lesson_completed (L1, U1)`
still answers `true`, the completion row is still present (the route never
touches `lesson_completions`), and the completion-cache key still holds
"true" (the bulk pattern `user:*:...` cannot match the stored
`v1:user:...` key). -/
theorem admin_delete_leaves_completions_and_cache :
    completionStateAfterAdminDelete = some (true, 1, some "true") := rfl

/-- C4 counterexample: the claim says a cache-deletion failure during an
admin update is logged but not fatal, the handler still returning its
redirect. In the scenario where the store's delete operation fails, the
update handler does not complete (the unguarded `await redis.delete`
raises out of it). -/
theorem admin_update_fails_on_cache_error_counterexample :
    adminUpdateSurvivesCacheFailure = false := rfl

/-- C4 amended: in the admin update and delete handlers the database commit
precedes the cache deletion and stands, but a cache-store deletion failure
is not caught: the handler propagates the error (carrying the committed
database state) instead of returning its redirect. (The service-layer
functions, by contrast, do absorb cache errors.) -/
theorem admin_cache_delete_failure_propagates_after_commit
    (r : Redis) (db : DB) (lesson_id title text_content : String)
    (video_file : Option String) (lesson : Lesson)
    (hdel : r.delFails = true)
    (hfind : db.findLesson lesson_id = some lesson) :
    lesson_admin.update_lesson r db lesson_id title text_content video_file
      = .error ({ db with lessons := db.lessons.map (fun l =>
          if l.id == lesson_id then
            { l with title := title, text_content := some text_content,
                     video_path :=
                       match video_file with
                       | some fn => if fn == "" then lesson.video_path
                                    else some ("static/videos/" ++ fn)
                       | none => lesson.video_path }
          else l) }, r) ∧
    lesson_admin.delete_lesson r db lesson_id
      = .error ({ db with lessons :=
          db.lessons.filter (fun l => !(l.id == lesson_id)) }, r) := by
  constructor
  · simp [lesson_admin.update_lesson, hfind, redis_delete, hdel]
  · simp [lesson_admin.delete_lesson, hfind, redis_delete, hdel]

/-- C4 witness: the amended statement at the concrete failing-delete
scenario. -/
theorem admin_cache_delete_failure_propagates_after_commit_witness :
    lesson_admin.update_lesson c4Redis sampleDb "L1" "New title" "body" none
      = .error ({ sampleDb with lessons := sampleDb.lessons.map (fun l =>
          if l.id == "L1" then
            { l with title := "New title", text_content := some "body",
                     video_path :=
                       match (none : Option String) with
                       | some fn => if fn == "" then sampleLesson.video_path
                                    else some ("static/videos/" ++ fn)
                       | none => sampleLesson.video_path }
          else l) }, c4Redis) ∧
    lesson_admin.delete_lesson c4Redis sampleDb "L1"
      = .error ({ sampleDb with lessons :=
          sampleDb.lessons.filter (fun l => !(l.id == "L1")) }, c4Redis) :=
  admin_cache_delete_failure_propagates_after_commit c4Redis sampleDb
    "L1" "New title" "body" none sampleLesson rfl rfl

/-- C8: `mark_lesson_completed` returns `None` whenever no lesson with the
given id exists, for every user and every prior database and cache state. -/
theorem mark_lesson_completed_missing_lesson_none
    (r : Redis) (db : DB) (lesson_id user_id : String)
    (h : db.findLesson lesson_id = none) :
    (lesson_service.mark_lesson_completed r db lesson_id user_id).1
      = none := by
  simp [lesson_service.mark_lesson_completed, h]

/-- C8 witness: the sample database holds no lesson "NOPE". -/
theorem mark_lesson_completed_missing_lesson_none_witness :
    (lesson_service.mark_lesson_completed sampleRedis sampleDb "NOPE"
      "U1").1 = none :=
  mark_lesson_completed_missing_lesson_none sampleRedis sampleDb "NOPE"
    "U1" rfl

/-- C9: on a completion-cache hit the function returns exactly the equality
of the cached string with "true", touching neither the database (the result
does not depend on it) nor the store; in particular any cached value other
than "true" — corrupt ones included — yields `false` without a database
recomputation. -/
theorem completion_cache_hit_string_compare
    (r : Redis) (db : DB) (lesson_id user_id s : String)
    (hg : r.getFails = false)
    (hhit : r.lookup (lesson_service.get_completion_cache_key
        user_id lesson_id) = some s) :
    lesson_service.is_lesson_completed r db lesson_id user_id
      = (s == "true", r) ∧
    (s ≠ "true" →
      (lesson_service.is_lesson_completed r db lesson_id user_id).1
        = false) := by
  have hmain :
      lesson_service.is_lesson_completed r db lesson_id user_id
        = (s == "true", r) := by
    simp [lesson_service.is_lesson_completed, redis_get, hg, hhit]
  refine ⟨hmain, fun hne => ?_⟩
  rw [hmain]
  simpa using hne

/-- C9 witness: the corrupt cached value "garbage" answers `false` without
consulting the (here completion-free) database. -/
theorem completion_cache_hit_string_compare_witness :
    (lesson_service.is_lesson_completed c9Redis sampleDb "L1" "U1"
        = ("garbage" == "true", c9Redis) ∧
      ("garbage" ≠ "true" →
        (lesson_service.is_lesson_completed c9Redis sampleDb "L1" "U1").1
          = false)) :=
  completion_cache_hit_string_compare c9Redis sampleDb "L1" "U1" "garbage"
    rfl rfl

/-- C10: whenever `mark_lesson_completed` returns `None` (lesson missing) or
`False` (record already present), it leaves the database and the cache store
exactly as they were: no insert, no commit, no cache write and no cache
deletion on either key. -/
theorem mark_lesson_completed_noop_frame
    (r : Redis) (db : DB) (lesson_id user_id : String)
    (h : (lesson_service.mark_lesson_completed r db lesson_id user_id).1
          = none ∨
         (lesson_service.mark_lesson_completed r db lesson_id user_id).1
          = some false) :
    (lesson_service.mark_lesson_completed r db lesson_id user_id).2.1 = db ∧
    (lesson_service.mark_lesson_completed r db lesson_id user_id).2.2
      = r := by
  rcases hf : db.findLesson lesson_id with _ | lesson
  · simp [lesson_service.mark_lesson_completed, hf]
  · by_cases hex : db.completionExists user_id lesson_id
    · simp [lesson_service.mark_lesson_completed, hf, hex]
    · simp [lesson_service.mark_lesson_completed, hf, hex] at h

/-- C10 witness: a pair already completed in the database; the call answers
`some false` and changes nothing. -/
theorem mark_lesson_completed_noop_frame_witness :
    (lesson_service.mark_lesson_completed sampleRedis c2Db "L1" "U1").2.1
      = c2Db ∧
    (lesson_service.mark_lesson_completed sampleRedis c2Db "L1" "U1").2.2
      = sampleRedis :=
  mark_lesson_completed_noop_frame sampleRedis c2Db "L1" "U1" (Or.inr rfl)

/-- C5: for an existing lesson with no prior completion record for the pair,
the first `mark_lesson_completed` returns `True`; the second call returns
`False` and leaves the state fixed (so every subsequent call behaves
identically); and exactly one completion record for the pair exists
afterwards. -/
theorem mark_lesson_completed_idempotent
    (r : Redis) (db : DB) (lesson_id user_id : String) (lesson : Lesson)
    (hfind : db.findLesson lesson_id = some lesson)
    (hnew : db.completionExists user_id lesson_id = false) :
    (lesson_service.mark_lesson_completed r db lesson_id user_id).1
      = some true ∧
    lesson_service.mark_lesson_completed
        (lesson_service.mark_lesson_completed r db lesson_id user_id).2.2
        (lesson_service.mark_lesson_completed r db lesson_id user_id).2.1
        lesson_id user_id
      = (some false,
         (lesson_service.mark_lesson_completed r db lesson_id user_id).2.1,
         (lesson_service.mark_lesson_completed r db lesson_id user_id).2.2) ∧
    ((lesson_service.mark_lesson_completed r db lesson_id
        user_id).2.1).countCompletions user_id lesson_id = 1 := by
  have hdb2 : (lesson_service.mark_lesson_completed r db lesson_id
      user_id).2.1
      = { db with completions :=
          db.completions ++ [⟨lesson_id, user_id⟩] } := by
    simp [lesson_service.mark_lesson_completed, hfind, hnew]
  have hfind2 : ({ db with completions :=
      db.completions ++ [⟨lesson_id, user_id⟩] } : DB).findLesson lesson_id
      = some lesson := hfind
  have hex2 : ({ db with completions :=
      db.completions ++ [⟨lesson_id, user_id⟩] } : DB).completionExists
        user_id lesson_id = true := by
    simp [DB.completionExists]
  refine ⟨by simp [lesson_service.mark_lesson_completed, hfind, hnew],
    ?_, ?_⟩
  · rw [hdb2]
    simp [lesson_service.mark_lesson_completed, hfind2, hex2]
  · rw [hdb2]
    have hany : db.completions.any
        (fun c => c.user_id == user_id && c.lesson_id == lesson_id)
        = false := hnew
    rw [List.any_eq_false] at hany
    have hfilter : db.completions.filter
        (fun c => c.user_id == user_id && c.lesson_id == lesson_id)
        = [] := by
      rw [List.filter_eq_nil_iff]
      intro a ha hp
      exact hany a ha hp
    simp [DB.countCompletions, List.filter_append, hfilter]

/-- C5 witness: the sample state (lesson L1 present, no completions) run
through the three-call observation. -/
theorem mark_lesson_completed_idempotent_witness :
    (lesson_service.mark_lesson_completed sampleRedis sampleDb "L1"
      "U1").1 = some true ∧
    lesson_service.mark_lesson_completed
        (lesson_service.mark_lesson_completed sampleRedis sampleDb "L1"
          "U1").2.2
        (lesson_service.mark_lesson_completed sampleRedis sampleDb "L1"
          "U1").2.1
        "L1" "U1"
      = (some false,
         (lesson_service.mark_lesson_completed sampleRedis sampleDb "L1"
           "U1").2.1,
         (lesson_service.mark_lesson_completed sampleRedis sampleDb "L1"
           "U1").2.2) ∧
    ((lesson_service.mark_lesson_completed sampleRedis sampleDb "L1"
        "U1").2.1).countCompletions "U1" "L1" = 1 :=
  mark_lesson_completed_idempotent sampleRedis sampleDb "L1" "U1"
    sampleLesson rfl rfl

/-- C6: when every cache-store operation the two read paths issue fails
(read and write outage), `get_lesson_data` and `is_lesson_completed` still
return exactly the database-computed results, and — being total functions —
surface no error. -/
theorem cache_outage_falls_back_to_db
    (r : Redis) (db : DB) (lesson_id user_id : String)
    (hget : r.getFails = true) (hset : r.setFails = true) :
    (lesson_service.get_lesson_data r db lesson_id).1
      = lesson_service.fetch_lesson_from_db lesson_id db ∧
    (lesson_service.is_lesson_completed r db lesson_id user_id).1
      = db.completionExists user_id lesson_id := by
  constructor
  · rcases hfetch : lesson_service.fetch_lesson_from_db lesson_id db with
      _ | ⟨l, c, h⟩ <;>
      simp [lesson_service.get_lesson_data, redis_get, hget, hfetch]
  · simp [lesson_service.is_lesson_completed, redis_get, hget,
      redis_setex, hset]

/-- C6 witness: the outage store over the sample database. -/
theorem cache_outage_falls_back_to_db_witness :
    (lesson_service.get_lesson_data downRedis sampleDb "L1").1
      = lesson_service.fetch_lesson_from_db "L1" sampleDb ∧
    (lesson_service.is_lesson_completed downRedis sampleDb "L1" "U1").1
      = sampleDb.completionExists "U1" "L1" :=
  cache_outage_falls_back_to_db downRedis sampleDb "L1" "U1" rfl rfl

/-- The serialized form of a payload object is never the empty string, so
the Python truthiness test on the cached text passes. -/
theorem dumps_obj_beq_empty (fs : List (String × Json)) :
    (dumps (Json.obj fs) == "") = false := by
  rw [beq_eq_false_iff_ne]
  intro hcontr
  have hdata := congrArg String.data hcontr
  have hnil : ("" : String).data = [] := rfl
  rw [hnil] at hdata
  simp [dumps, dumpsChars] at hdata

/-- C7: for an existing lesson, a cold `get_lesson_data` (cache miss,
healthy store) returns the database-computed triple and stores its
serialization; the immediately following warm call deserializes that very
entry and returns the identical triple. -/
theorem lesson_cache_roundtrip_cold_warm
    (r : Redis) (db : DB) (lesson_id : String) (t : Json × Json × Json)
    (hget : r.getFails = false) (hset : r.setFails = false)
    (hmiss : r.lookup (lesson_service.get_lesson_cache_key lesson_id)
      = none)
    (hfetch : lesson_service.fetch_lesson_from_db lesson_id db = some t) :
    (lesson_service.get_lesson_data r db lesson_id).1 = some t ∧
    (lesson_service.get_lesson_data
        (lesson_service.get_lesson_data r db lesson_id).2 db lesson_id).1
      = some t := by
  obtain ⟨l, c, h⟩ := t
  have hcold : lesson_service.get_lesson_data r db lesson_id
      = (some (l, c, h),
         lesson_service.cache_lesson_data r
           (lesson_service.get_lesson_cache_key lesson_id) l c h) := by
    simp [lesson_service.get_lesson_data, redis_get, hget, hmiss, hfetch]
  have hget2 : (lesson_service.cache_lesson_data r
      (lesson_service.get_lesson_cache_key lesson_id) l c h).getFails
      = false := by
    simp [lesson_service.cache_lesson_data, redis_setex, hset, hget]
  have hlookup2 : (lesson_service.cache_lesson_data r
      (lesson_service.get_lesson_cache_key lesson_id) l c h).lookup
        (lesson_service.get_lesson_cache_key lesson_id)
      = some (dumps (.obj
          [("lesson", l), ("course", c), ("text_html", h)])) := by
    simp [lesson_service.cache_lesson_data, redis_setex, hset, Redis.lookup]
  refine ⟨by rw [hcold], ?_⟩
  rw [hcold]
  simp [lesson_service.get_lesson_data, redis_get, hget2, hlookup2,
    dumps_obj_beq_empty, loads_dumps, Json.isDict, Json.hasKey, Json.lookup]

/-- C7 witness: the sample state, cold then warm. -/
theorem lesson_cache_roundtrip_cold_warm_witness :
    (lesson_service.get_lesson_data sampleRedis sampleDb "L1").1
      = some sampleTriple ∧
    (lesson_service.get_lesson_data
        (lesson_service.get_lesson_data sampleRedis sampleDb "L1").2
        sampleDb "L1").1
      = some sampleTriple :=
  lesson_cache_roundtrip_cold_warm sampleRedis sampleDb "L1" sampleTriple
    rfl rfl rfl rfl
